import Mathlib

/-!
Shallow embedding of the healthcare MDM application (`src/app/app.py`).

The application is a Streamlit front end whose data operations are SQL
queries against a warehouse, with a per-session TTL cache.  We embed:

* the session cache (`data_cache` / `cache_timestamps` dictionaries and the
  functions `is_cache_valid`, `get_cached_data`, `set_cached_data`,
  `clear_cache`, and the `async_query_wrapper` decorator),
* the table-reference / cache-key derivation (`get_table_reference`, the
  key built inside `async_query_wrapper`),
* the SQL semantics of `fetch_duplicate_data`, `fetch_quality_data`,
  `generate_golden_records`, `update_golden_record_status`, and the reject
  branch of `show_enhanced_stewardship_interface`.

Python dictionaries are modelled as association lists (first binding wins,
insertion prepends after removing the old binding), wall-clock time as an
integer number of seconds, SQL doubles that only ever enter ordered
comparisons as rationals, and the remote AI scoring calls as oracle
functions passed in as parameters.  A SQL `ORDER BY` with a single key does
not fix the relative order of tied rows, so the result of a query ending in
`ORDER BY k DESC` is modelled relationally: a list is a possible result iff
it is a permutation of the unsorted rows that is sorted by `k` descending.
-/

namespace HealthcareMDM

/-- Session database configuration (`st.session_state.db_config`). -/
structure DbConfig where
  catalog_name : String
  schema_name : String
  table_name : String
  golden_table_name : String
deriving DecidableEq, Repr

/-- Function `get_table_reference(table_type)`: fully qualified table reference;
`'golden'` selects the golden-records table, anything else the main table. -/
def get_table_reference (config : DbConfig) (table_type : String) : String :=
  if table_type = "golden" then
    config.catalog_name ++ "." ++ config.schema_name ++ "." ++ config.golden_table_name
  else
    config.catalog_name ++ "." ++ config.schema_name ++ "." ++ config.table_name

/-- Constant `CACHE_EXPIRY = 300` seconds (5 minutes). -/
def CACHE_EXPIRY : Int := 300

/-- The session cache: `st.session_state.data_cache` and
`st.session_state.cache_timestamps`, modelled as association lists keyed by
the cache-key string. -/
structure Cache (α : Type) where
  data_cache : List (String × α)
  cache_timestamps : List (String × Int)
deriving DecidableEq, Repr

/-- Dictionary update `d[k] = v`: replace any existing binding for `k`. -/
def dictInsert {β : Type} (d : List (String × β)) (k : String) (v : β) :
    List (String × β) :=
  (k, v) :: d.filter (fun p => p.1 ≠ k)

/-- Function `is_cache_valid(cache_key)`: the key has a timestamp and its age is
strictly below `CACHE_EXPIRY`. -/
def is_cache_valid {α : Type} (c : Cache α) (now : Int) (cache_key : String) :
    Bool :=
  match c.cache_timestamps.lookup cache_key with
  | none => false
  | some cache_time => now - cache_time < CACHE_EXPIRY

/-- Function `get_cached_data(cache_key)`: the cached value when the key is valid and
present in `data_cache`, else `None`. -/
def get_cached_data {α : Type} (c : Cache α) (now : Int) (cache_key : String) :
    Option α :=
  if is_cache_valid c now cache_key then c.data_cache.lookup cache_key
  else none

/-- Function `set_cached_data(cache_key, data)`: store the value with the current
timestamp. -/
def set_cached_data {α : Type} (c : Cache α) (now : Int) (cache_key : String)
    (data : α) : Cache α :=
  { data_cache := dictInsert c.data_cache cache_key data
    cache_timestamps := dictInsert c.cache_timestamps cache_key now }

/-- Function `clear_cache()`: reset both dictionaries to empty. -/
def clear_cache {α : Type} : Cache α :=
  { data_cache := [], cache_timestamps := [] }

/-- The cache key built inside `async_query_wrapper`:
`f"{func.__name__}_{catalog_name}_{schema_name}_{table_name}"`.  Note that
it always uses `table_name`, never `golden_table_name`. -/
def cache_key (funcName : String) (config : DbConfig) : String :=
  funcName ++ "_" ++ config.catalog_name ++ "_" ++ config.schema_name ++ "_"
    ++ config.table_name

/-- Does the second character list start with the first? -/
def charsStart : List Char → List Char → Bool
  | [], _ => true
  | _ :: _, [] => false
  | a :: as, b :: bs => (a = b) && charsStart as bs

/-- Does the second character list contain the first as a contiguous
run? -/
def charsContain : List Char → List Char → Bool
  | sub, [] => charsStart sub []
  | sub, c :: hs => charsStart sub (c :: hs) || charsContain sub hs

/-- Substring test used by the wrapper's fallback branches
(`'patient' in func.__name__`). -/
def strContains (s sub : String) : Bool :=
  charsContain sub.data s.data

/-- The fallback value returned by `async_query_wrapper` when the wrapped
query raises: demo patient data, demo quality data, or an empty frame. -/
def fallback_data {α : Type} (funcName : String) (demoData demoQuality emptyFrame : α) :
    α :=
  if strContains funcName "patient" then demoData
  else if strContains funcName "quality" then demoQuality
  else emptyFrame

/-- Decorator `async_query_wrapper` applied to one call: check the cache under the
derived key; on a hit return the cached value; on a miss run the query.  A
successful query result is stored and returned; a raising query is caught
(`except`), nothing is stored, and a fallback dataset is returned in place
of the error.  The pair is (returned value, cache afterwards); the returned
value is `Except.ok` because the wrapper never re-raises. -/
def async_query_wrapper {α : Type} (funcName : String) (config : DbConfig)
    (func : Except String α) (c : Cache α) (now : Int)
    (demoData demoQuality emptyFrame : α) : Except String α × Cache α :=
  let key := cache_key funcName config
  match get_cached_data c now key with
  | some cached => (Except.ok cached, c)
  | none =>
    match func with
    | Except.ok result => (Except.ok result, set_cached_data c now key result)
    | Except.error _ =>
        (Except.ok (fallback_data funcName demoData demoQuality emptyFrame), c)

/-- A row of the main patients table (the columns the embedded queries
read; remaining demographic columns behave identically and are carried by
`other_fields`-style oracles below, which receive whole rows). -/
structure Patient where
  patient_id : Nat
  patient_name : Option String
  date_of_birth : Option String
  medicare_number : Option String
  source_system : Option String
deriving DecidableEq, Repr

/-- The pairwise-similarity oracle (`ai_query` inside
`fetch_duplicate_data`): for a pair of rows it returns
`(similarity_score, is_match, confidence, match_reason)`. -/
structure SimilarityVerdict where
  similarity_score : ℚ
  is_match : Bool
  confidence : String
  match_reason : String
deriving DecidableEq, Repr

/-- A row of the result set of `fetch_duplicate_data`. -/
structure SimRow where
  id1 : Nat
  id2 : Nat
  similarity_score : ℚ
  is_match : Bool
  confidence : String
deriving DecidableEq, Repr

/-- The `pairwise_similarity` CTE of `fetch_duplicate_data`: every pair of
rows of the main table with `t1.patient_id < t2.patient_id`, scored by the
oracle. -/
def pairwise_similarity (records : List Patient)
    (oracle : Patient → Patient → SimilarityVerdict) : List SimRow :=
  ((records ×ˢ records).filter
      (fun p => p.1.patient_id < p.2.patient_id)).map
    (fun p =>
      let v := oracle p.1 p.2
      { id1 := p.1.patient_id, id2 := p.2.patient_id
        similarity_score := v.similarity_score, is_match := v.is_match
        confidence := v.confidence })

/-- The literal `0.5` of the `WHERE similarity_score > 0.5` clause. -/
def MATCH_THRESHOLD : ℚ := mkRat 1 2

/-- The unsorted result rows of `fetch_duplicate_data`: the CTE rows whose
`similarity_score` exceeds `0.5` (`WHERE ... > 0.5`). -/
def duplicate_rows (records : List Patient)
    (oracle : Patient → Patient → SimilarityVerdict) : List SimRow :=
  (pairwise_similarity records oracle).filter
    (fun r => MATCH_THRESHOLD < r.similarity_score)

/-- The result of `fetch_duplicate_data` ends in
`ORDER BY similarity_score DESC` with no secondary key, so a list is a
possible returned result iff it is a permutation of `duplicate_rows` that
is non-increasing in `similarity_score`. -/
def fetch_duplicate_data (records : List Patient)
    (oracle : Patient → Patient → SimilarityVerdict) (out : List SimRow) :
    Prop :=
  out.Perm (duplicate_rows records oracle) ∧
    out.Sorted (fun a b => b.similarity_score ≤ a.similarity_score)

instance (records : List Patient)
    (oracle : Patient → Patient → SimilarityVerdict) (out : List SimRow) :
    Decidable (fetch_duplicate_data records oracle out) := by
  unfold fetch_duplicate_data
  infer_instance

/-- A row of the result set of `fetch_quality_data`. -/
structure QualityRow where
  patient_id : Nat
  patient_name : Option String
  source_system : Option String
  quality_score : Int
  completeness : ℚ
deriving DecidableEq, Repr

/-- The quality oracle (`ai_query` inside `fetch_quality_data`): per-row
`(quality_score, completeness, issues)`; the query orders by
`CAST(quality_score AS INT)`, so the score is carried as an integer. -/
structure QualityVerdict where
  quality_score : Int
  completeness : ℚ
deriving DecidableEq, Repr

/-- The `patient_quality` CTE of `fetch_quality_data`: one assessed row per
row of the main table. -/
def quality_rows (records : List Patient)
    (oracle : Patient → QualityVerdict) : List QualityRow :=
  records.map (fun t =>
    let v := oracle t
    { patient_id := t.patient_id, patient_name := t.patient_name
      source_system := t.source_system
      quality_score := v.quality_score, completeness := v.completeness })

/-- The result of `fetch_quality_data` ends in
`ORDER BY CAST(quality_score AS INT) DESC` with no secondary key, so a list
is a possible returned result iff it is a permutation of `quality_rows`
that is non-increasing in `quality_score`. -/
def fetch_quality_data (records : List Patient)
    (oracle : Patient → QualityVerdict) (out : List QualityRow) : Prop :=
  out.Perm (quality_rows records oracle) ∧
    out.Sorted (fun a b => b.quality_score ≤ a.quality_score)

instance (records : List Patient) (oracle : Patient → QualityVerdict)
    (out : List QualityRow) :
    Decidable (fetch_quality_data records oracle out) := by
  unfold fetch_quality_data
  infer_instance

/-- The merged demographic/clinical columns of a golden record (the fields
written by the `INSERT` in `generate_golden_records` other than provenance,
confidence and stewardship columns).  Each is nullable in the table. -/
structure GoldenFields where
  medical_record_num : Option String
  patient_name : Option String
  date_of_birth : Option String
  medicare_number : Option String
  phone : Option String
  email : Option String
  address : Option String
  suburb : Option String
  postcode : Option String
  private_health_fund : Option String
  membership_number : Option String
  emergency_contact : Option String
  gp_name : Option String
  blood_type : Option String
  gender : Option String
deriving DecidableEq, Repr

/-- A row of the golden-records table (`patients_gold` schema from
`create_golden_table_if_not_exists`). -/
structure GoldenRecord where
  golden_record_id : Nat
  patient_id_cluster : String
  fields : GoldenFields
  confidence_score : ℚ
  source_patient_ids : String
  steward_status : String
  steward_comments : Option String
  approved_by : Option String
  approved_at : Option Int
  created_at : Int
  updated_at : Int
deriving DecidableEq, Repr

/-- The `high_confidence_matches` CTE of `generate_golden_records`: pairs
of main-table rows with `t1.patient_id < t2.patient_id` whose same-person
`ai_query` returns the string `'true'`. -/
def high_confidence_matches (records : List Patient)
    (same_person : Patient → Patient → Bool) : List (Patient × Patient) :=
  (records ×ˢ records).filter
    (fun p => p.1.patient_id < p.2.patient_id ∧ same_person p.1 p.2)

/-- Expression `CONCAT(t1.patient_id, ',', t2.patient_id)`: the provenance string of a
golden record. -/
def source_ids_of (p : Patient × Patient) : String :=
  toString p.1.patient_id ++ "," ++ toString p.2.patient_id

/-- The row inserted by `generate_golden_records` for one admitted pair:
merged fields and confidence from the merge oracle, provenance in both
`patient_id_cluster` and `source_patient_ids`, status `'pending'`, both
timestamps `CURRENT_TIMESTAMP()`; the unlisted stewardship columns default
to `NULL`, and `golden_record_id` is the next identity value. -/
def mkGoldenRow (merge : Patient → Patient → GoldenFields × ℚ) (nextId : Nat)
    (now : Int) (p : Patient × Patient) : GoldenRecord :=
  { golden_record_id := nextId
    patient_id_cluster := source_ids_of p
    fields := (merge p.1 p.2).1
    confidence_score := (merge p.1 p.2).2
    source_patient_ids := source_ids_of p
    steward_status := "pending"
    steward_comments := none
    approved_by := none
    approved_at := none
    created_at := now
    updated_at := now }

/-- The rows inserted by `generate_golden_records`, one per admitted pair,
with successive identity-column values starting at `nextId`. -/
def golden_rows (merge : Patient → Patient → GoldenFields × ℚ) (nextId : Nat)
    (now : Int) : List (Patient × Patient) → List GoldenRecord
  | [] => []
  | p :: ps => mkGoldenRow merge nextId now p :: golden_rows merge (nextId + 1) now ps

/-- Function `generate_golden_records`: `INSERT INTO {golden} ... SELECT ... FROM
high_confidence_matches` — the golden table afterwards is the old table
with one new `'pending'` row appended per admitted pair.  Existing rows are
never updated or deleted. -/
def generate_golden_records (records : List Patient)
    (same_person : Patient → Patient → Bool)
    (merge : Patient → Patient → GoldenFields × ℚ)
    (golden : List GoldenRecord) (nextId : Nat) (now : Int) :
    List GoldenRecord :=
  golden ++ golden_rows merge nextId now (high_confidence_matches records same_person)

/-- Function `update_golden_record_status(record_id, status, comments, approved_by)`:
`UPDATE {golden} SET steward_status, steward_comments, approved_by,
approved_at = CURRENT_TIMESTAMP(), updated_at = CURRENT_TIMESTAMP() WHERE
golden_record_id = record_id`, then `return True` (the `WHERE` clause has
no condition on the current status).  The Boolean mirrors the function's
return value on a reachable warehouse. -/
def update_golden_record_status (golden : List GoldenRecord) (record_id : Nat)
    (status comments approved_by : String) (now : Int) :
    List GoldenRecord × Bool :=
  (golden.map (fun r =>
      if r.golden_record_id = record_id then
        { r with
          steward_status := status
          steward_comments := some comments
          approved_by := some approved_by
          approved_at := some now
          updated_at := now }
      else r),
    true)

/-- Outcome of the reject button handler in
`show_enhanced_stewardship_interface`. -/
inductive RejectOutcome
  | rejected
  | validationError
deriving DecidableEq, Repr

/-- The reject branch of `show_enhanced_stewardship_interface`: if the
comments text is non-empty (Python truthiness of the string), call
`update_golden_record_status(record_id, 'rejected', comments, steward)`;
otherwise show `"Please provide comments when rejecting a record."` and
perform no database call. -/
def reject_record (golden : List GoldenRecord) (record_id : Nat)
    (comments steward_name : String) (now : Int) :
    List GoldenRecord × RejectOutcome :=
  if comments ≠ "" then
    ((update_golden_record_status golden record_id "rejected" comments
        steward_name now).1,
      RejectOutcome.rejected)
  else
    (golden, RejectOutcome.validationError)

/-- Phase of one caller executing the body of `async_query_wrapper`:
about to check the cache; past a cache miss; past running the query; done
(having returned either the cached or the freshly computed value). -/
inductive CallerPhase
  | ready
  | missed
  | computed
  | finished
deriving DecidableEq, Repr

/-- One caller's local state: its phase, the value produced by its own
query run (`result = func(...)` in the wrapper body), and its returned
value once finished. -/
structure CallerView (α : Type) where
  phase : CallerPhase
  pending : Option α
  retval : Option α
deriving DecidableEq, Repr

/-- Two callers concurrently inside `async_query_wrapper` for the same
cache key, sharing the session cache; `computeCount` counts how many times
the wrapped query function has been invoked. -/
structure RaceState (α : Type) where
  cache : Cache α
  callerA : CallerView α
  callerB : CallerView α
  computeCount : Nat
deriving DecidableEq, Repr

/-- One atomic step of one caller inside the wrapper body, at the
granularity of the wrapper's statements: `ready` performs the
`get_cached_data` check (a hit returns the cached value, a miss falls
through); `missed` runs the wrapped query (this is the compute
invocation); `computed` performs `set_cached_data` and returns the
computed value. -/
def caller_step {α : Type} (key : String) (now : Int) (compute : α)
    (v : CallerView α) (cache : Cache α) (count : Nat) :
    CallerView α × Cache α × Nat :=
  match v.phase with
  | CallerPhase.ready =>
    match get_cached_data cache now key with
    | some cached =>
        ({ v with phase := CallerPhase.finished, retval := some cached },
          cache, count)
    | none => ({ v with phase := CallerPhase.missed }, cache, count)
  | CallerPhase.missed =>
      ({ v with phase := CallerPhase.computed, pending := some compute },
        cache, count + 1)
  | CallerPhase.computed =>
    match v.pending with
    | some r =>
        ({ v with phase := CallerPhase.finished, retval := some r },
          set_cached_data cache now key r, count)
    | none => (v, cache, count)
  | CallerPhase.finished => (v, cache, count)

/-- Advance the interleaving by one step of caller A (`false`) or caller B
(`true`). -/
def race_step {α : Type} (key : String) (now : Int) (computeA computeB : α)
    (s : RaceState α) (caller : Bool) : RaceState α :=
  if caller then
    let r := caller_step key now computeB s.callerB s.cache s.computeCount
    { s with callerB := r.1, cache := r.2.1, computeCount := r.2.2 }
  else
    let r := caller_step key now computeA s.callerA s.cache s.computeCount
    { s with callerA := r.1, cache := r.2.1, computeCount := r.2.2 }

/-- Both callers about to enter the wrapper while no cache entry exists. -/
def race_init {α : Type} : RaceState α :=
  { cache := clear_cache
    callerA := { phase := CallerPhase.ready, pending := none, retval := none }
    callerB := { phase := CallerPhase.ready, pending := none, retval := none }
    computeCount := 0 }

/-- Run a schedule (list of caller choices) from the empty-cache initial
state, for the cache key of operation `funcName` under `config`. -/
def race_run {α : Type} (funcName : String) (config : DbConfig) (now : Int)
    (computeA computeB : α) (sched : List Bool) : RaceState α :=
  sched.foldl (race_step (cache_key funcName config) now computeA computeB)
    race_init

/-- Both callers have returned from the wrapper. -/
def race_done {α : Type} (s : RaceState α) : Prop :=
  s.callerA.phase = CallerPhase.finished ∧ s.callerB.phase = CallerPhase.finished

instance {α : Type} (s : RaceState α) : Decidable (race_done s) := by
  unfold race_done
  infer_instance

/-! Helper lemmas. -/

/-- Zipping a mapped list with the original pairs each image with its
preimage. -/
theorem mem_zip_map_self {α β : Type} (f : α → β) (l : List α) :
    ∀ rp ∈ (l.map f).zip l, rp.1 = f rp.2 := by
  induction l with
  | nil => simp
  | cons a t ih =>
    intro rp hrp
    simp only [List.map_cons, List.zip_cons_cons, List.mem_cons] at hrp
    rcases hrp with h | h
    · rw [h]
    · exact ih rp h

/-- The demo session configuration (`st.session_state.db_config`
defaults). -/
def demo_config : DbConfig :=
  { catalog_name := "danny_catalog"
    schema_name := "healthcare_mdm_schema"
    table_name := "patients"
    golden_table_name := "patients_gold" }

/-! ### C5 — cache TTL and clearing -/

/-- C5: a cache entry whose age is at least `CACHE_EXPIRY = 300` seconds is
never returned by `get_cached_data`, and after `clear_cache` every key
reads as a miss. -/
theorem stale_entries_never_returned {α : Type} (c : Cache α) (now : Int)
    (key : String) (t : Int)
    (ht : c.cache_timestamps.lookup key = some t)
    (hage : CACHE_EXPIRY ≤ now - t) :
    get_cached_data c now key = none ∧
      ∀ (now2 : Int) (k : String),
        get_cached_data (clear_cache : Cache α) now2 k = none := by
  constructor
  · unfold get_cached_data is_cache_valid
    rw [ht]
    have hfalse : ¬ (now - t < CACHE_EXPIRY) := by
      unfold CACHE_EXPIRY at *
      omega
    simp [hfalse]
  · intro now2 k
    unfold get_cached_data is_cache_valid clear_cache
    simp [List.lookup]

/-- Witness for C5 at a concrete cache: an entry written at time 0 read at
time 300 is a miss, and the cleared cache misses on its own key. -/
theorem stale_entries_never_returned_witness :
    get_cached_data (⟨[("k", 42)], [("k", 0)]⟩ : Cache Nat) 300 "k" = none ∧
      ∀ (now2 : Int) (k : String),
        get_cached_data (clear_cache : Cache Nat) now2 k = none :=
  stale_entries_never_returned ⟨[("k", 42)], [("k", 0)]⟩ 300 "k" 0 (by decide)
    (by decide)

/-! ### C4 — reject with empty comments -/

/-- C4: rejecting with empty comments takes the validation-error branch
(`"Please provide comments when rejecting a record."`) and performs no
update: the golden table is returned unchanged, for every table, record id,
steward and time (in particular for pending records). -/
theorem reject_empty_comments_no_change (golden : List GoldenRecord)
    (record_id : Nat) (steward_name : String) (now : Int) :
    reject_record golden record_id "" steward_name now =
      (golden, RejectOutcome.validationError) := by
  unfold reject_record
  simp

/-! ### C3 — no state-conflict guard on transitions -/

/-- A concrete golden table holding one already-approved record. -/
def c3_golden : List GoldenRecord :=
  [{ golden_record_id := 7
     patient_id_cluster := "1,2"
     fields :=
       { medical_record_num := some "MRN000001", patient_name := some "John Smith"
         date_of_birth := none, medicare_number := some "2428912345678"
         phone := none, email := none, address := none, suburb := some "Melbourne"
         postcode := some "3000", private_health_fund := some "Medibank"
         membership_number := none, emergency_contact := none, gp_name := none
         blood_type := some "O+", gender := some "M" }
     confidence_score := 1
     source_patient_ids := "1,2"
     steward_status := "approved"
     steward_comments := some "looks right"
     approved_by := some "steward one"
     approved_at := some 100
     created_at := 50
     updated_at := 100 }]

/-- Counterexample to C3: `update_golden_record_status` on a record whose
status is already `'approved'` reports success (`True`) and overwrites the
status — it neither fails with a state-conflict error nor leaves the record
unchanged, because the SQL `UPDATE ... WHERE golden_record_id = id` carries
no condition on the current status. -/
theorem second_transition_succeeds_and_overwrites :
    (update_golden_record_status c3_golden 7 "rejected" "changed my mind"
        "steward two" 200).2 = true ∧
      (update_golden_record_status c3_golden 7 "rejected" "changed my mind"
          "steward two" 200).1.map GoldenRecord.steward_status = ["rejected"] ∧
      (update_golden_record_status c3_golden 7 "rejected" "changed my mind"
          "steward two" 200).1 ≠ c3_golden := by
  decide

/-- C3 as amended: a first transition on a pending record succeeds, and a
second transition on the same id also succeeds (returns `True`) and
overwrites the first decision's status; `update_golden_record_status`
performs no status guard.  Stated for an arbitrary table and two arbitrary
successive decisions. -/
theorem transitions_never_conflict (golden : List GoldenRecord)
    (record_id : Nat) (c1 s1 c2 s2 : String) (n1 n2 : Int) :
    (update_golden_record_status golden record_id "approved" c1 s1 n1).2 = true ∧
      (update_golden_record_status
          (update_golden_record_status golden record_id "approved" c1 s1 n1).1
          record_id "rejected" c2 s2 n2).2 = true ∧
      ∀ rp ∈ ((update_golden_record_status
            (update_golden_record_status golden record_id "approved" c1 s1 n1).1
            record_id "rejected" c2 s2 n2).1).zip golden,
        rp.2.golden_record_id = record_id → rp.1.steward_status = "rejected" := by
  refine ⟨rfl, rfl, ?_⟩
  intro rp hrp hid
  unfold update_golden_record_status at hrp
  simp only [List.map_map] at hrp
  have h := mem_zip_map_self _ golden rp hrp
  rw [h]
  simp [Function.comp, hid]

/-- Witness for C3's amended theorem at the concrete one-record table. -/
theorem transitions_never_conflict_witness :
    (update_golden_record_status c3_golden 7 "approved" "ok" "s1" 150).2 = true ∧
      (update_golden_record_status
          (update_golden_record_status c3_golden 7 "approved" "ok" "s1" 150).1
          7 "rejected" "no" "s2" 160).2 = true ∧
      ∀ rp ∈ ((update_golden_record_status
            (update_golden_record_status c3_golden 7 "approved" "ok" "s1" 150).1
            7 "rejected" "no" "s2" 160).1).zip c3_golden,
        rp.2.golden_record_id = 7 → rp.1.steward_status = "rejected" :=
  transitions_never_conflict c3_golden 7 "ok" "s1" "no" "s2" 150 160

/-! ### C10 — frame effect of a status transition -/

/-- C10: a transition via `update_golden_record_status` touches, in the
matching record, exactly the five stewardship columns (`steward_status`,
`steward_comments`, `approved_by`, `approved_at`, `updated_at`), leaving
every merged demographic field, provenance, confidence and `created_at`
unchanged; every non-matching record is left entirely unchanged, and no
record is added or removed. -/
theorem update_status_frame (golden : List GoldenRecord) (record_id : Nat)
    (status comments approved_by : String) (now : Int) :
    (update_golden_record_status golden record_id status comments approved_by
        now).1.length = golden.length ∧
      ∀ rp ∈ ((update_golden_record_status golden record_id status comments
            approved_by now).1).zip golden,
        (rp.2.golden_record_id ≠ record_id → rp.1 = rp.2) ∧
          (rp.2.golden_record_id = record_id →
            rp.1.fields = rp.2.fields ∧
              rp.1.golden_record_id = rp.2.golden_record_id ∧
              rp.1.patient_id_cluster = rp.2.patient_id_cluster ∧
              rp.1.confidence_score = rp.2.confidence_score ∧
              rp.1.source_patient_ids = rp.2.source_patient_ids ∧
              rp.1.created_at = rp.2.created_at ∧
              rp.1.steward_status = status ∧
              rp.1.steward_comments = some comments ∧
              rp.1.approved_by = some approved_by ∧
              rp.1.approved_at = some now ∧
              rp.1.updated_at = now) := by
  constructor
  · simp [update_golden_record_status]
  · intro rp hrp
    unfold update_golden_record_status at hrp
    have h := mem_zip_map_self _ golden rp hrp
    constructor
    · intro hne
      rw [h]
      simp [hne]
    · intro heq
      rw [h]
      simp [heq]

/-- Witness for C10 at the concrete one-record table: the demographic
fields of the approved record survive a further transition untouched. -/
theorem update_status_frame_witness :
    (update_golden_record_status c3_golden 7 "rejected" "why" "s2"
        200).1.length = c3_golden.length ∧
      ∀ rp ∈ ((update_golden_record_status c3_golden 7 "rejected" "why" "s2"
            200).1).zip c3_golden,
        (rp.2.golden_record_id ≠ 7 → rp.1 = rp.2) ∧
          (rp.2.golden_record_id = 7 →
            rp.1.fields = rp.2.fields ∧
              rp.1.golden_record_id = rp.2.golden_record_id ∧
              rp.1.patient_id_cluster = rp.2.patient_id_cluster ∧
              rp.1.confidence_score = rp.2.confidence_score ∧
              rp.1.source_patient_ids = rp.2.source_patient_ids ∧
              rp.1.created_at = rp.2.created_at ∧
              rp.1.steward_status = "rejected" ∧
              rp.1.steward_comments = some "why" ∧
              rp.1.approved_by = some "s2" ∧
              rp.1.approved_at = some 200 ∧
              rp.1.updated_at = 200) :=
  update_status_frame c3_golden 7 "rejected" "why" "s2" 200

/-! ### C2 — golden-record generation -/

/-- Each inserted golden row is built by `mkGoldenRow` from its admitted
pair (at some identity value). -/
theorem golden_rows_zip (merge : Patient → Patient → GoldenFields × ℚ)
    (now : Int) :
    ∀ (ps : List (Patient × Patient)) (n : Nat),
      ∀ rp ∈ (golden_rows merge n now ps).zip ps,
        ∃ k, rp.1 = mkGoldenRow merge k now rp.2 := by
  intro ps
  induction ps with
  | nil =>
    intro n rp hrp
    simp [golden_rows] at hrp
  | cons p t ih =>
    intro n rp hrp
    simp only [golden_rows, List.zip_cons_cons, List.mem_cons] at hrp
    rcases hrp with h | h
    · exact ⟨n, by rw [h]⟩
    · exact ih (n + 1) rp h

/-- One inserted row per admitted pair. -/
theorem golden_rows_length (merge : Patient → Patient → GoldenFields × ℚ)
    (now : Int) :
    ∀ (ps : List (Patient × Patient)) (n : Nat),
      (golden_rows merge n now ps).length = ps.length := by
  intro ps
  induction ps with
  | nil => intro n; rfl
  | cons p t ih =>
    intro n
    simp [golden_rows, ih (n + 1)]

/-- C2: `generate_golden_records` appends exactly one new row per admitted
same-person pair (a pair of rows with `id1 < id2` whose same-person oracle
answered true), leaves every pre-existing golden record in place unchanged,
and each new row has status `'pending'`, provenance equal to the two
contributing patient ids (`"id1,id2"`), merged fields and confidence from
the merge oracle, null stewardship columns and fresh timestamps. -/
theorem generate_golden_records_spec (records : List Patient)
    (same_person : Patient → Patient → Bool)
    (merge : Patient → Patient → GoldenFields × ℚ)
    (golden : List GoldenRecord) (nextId : Nat) (now : Int) :
    (generate_golden_records records same_person merge golden nextId
          now).length =
        golden.length + (high_confidence_matches records same_person).length ∧
      (generate_golden_records records same_person merge golden nextId
          now).take golden.length = golden ∧
      (∀ p1 p2 : Patient,
        (p1, p2) ∈ high_confidence_matches records same_person ↔
          p1 ∈ records ∧ p2 ∈ records ∧ p1.patient_id < p2.patient_id ∧
            same_person p1 p2 = true) ∧
      ∀ rp ∈ ((generate_golden_records records same_person merge golden nextId
            now).drop golden.length).zip
          (high_confidence_matches records same_person),
        rp.1.steward_status = "pending" ∧
          rp.1.source_patient_ids = source_ids_of rp.2 ∧
          rp.1.patient_id_cluster = source_ids_of rp.2 ∧
          rp.1.fields = (merge rp.2.1 rp.2.2).1 ∧
          rp.1.confidence_score = (merge rp.2.1 rp.2.2).2 ∧
          rp.1.steward_comments = none ∧
          rp.1.approved_by = none ∧
          rp.1.approved_at = none ∧
          rp.1.created_at = now ∧
          rp.1.updated_at = now := by
  refine ⟨?_, ?_, ?_, ?_⟩
  · simp [generate_golden_records,
      golden_rows_length merge now (high_confidence_matches records same_person) nextId]
  · unfold generate_golden_records
    exact List.take_left golden _
  · intro p1 p2
    unfold high_confidence_matches
    simp [List.mem_filter, List.mem_product, and_assoc]
  · intro rp hrp
    unfold generate_golden_records at hrp
    rw [List.drop_left golden _] at hrp
    obtain ⟨k, hk⟩ :=
      golden_rows_zip merge now (high_confidence_matches records same_person)
        nextId rp hrp
    rw [hk]
    simp [mkGoldenRow]

/-- Demo source row 1. -/
def c2_p1 : Patient :=
  { patient_id := 1, patient_name := some "John Smith"
    date_of_birth := some "1980-01-01"
    medicare_number := some "2428912345678"
    source_system := some "EMR_System_A" }

/-- Demo source row 2, same Medicare number as row 1. -/
def c2_p2 : Patient :=
  { patient_id := 2, patient_name := some "J. Smith"
    date_of_birth := some "1980-01-01"
    medicare_number := some "2428912345678"
    source_system := some "EMR_System_B" }

/-- Two demo source rows judged the same person by matching Medicare
numbers. -/
def c2_records : List Patient := [c2_p1, c2_p2]

/-- A same-person oracle that treats matching Medicare numbers as
decisive. -/
def c2_same_person (p q : Patient) : Bool :=
  p.medicare_number = q.medicare_number

/-- A merge oracle producing fixed merged fields with full confidence. -/
def c2_merge (p : Patient) (q : Patient) : GoldenFields × ℚ :=
  ({ medical_record_num := some "MRN000001"
     patient_name := p.patient_name
     date_of_birth := p.date_of_birth
     medicare_number := q.medicare_number
     phone := none, email := none, address := none
     suburb := some "Melbourne", postcode := some "3000"
     private_health_fund := some "Medibank", membership_number := none
     emergency_contact := none, gp_name := none
     blood_type := some "O+", gender := some "M" }, 1)

/-- The single (inserted row, admitted pair) correspondence entry for the
demo input. -/
def c2_rp : GoldenRecord × (Patient × Patient) :=
  (mkGoldenRow c2_merge 1 0 (c2_p1, c2_p2), (c2_p1, c2_p2))

/-- Witness for C2: at the demo input with an empty golden table, the
admitted pair (1,2) yields a `'pending'` row with provenance `"1,2"`. -/
theorem generate_golden_records_spec_witness :
    c2_rp ∈ ((generate_golden_records c2_records c2_same_person c2_merge [] 1
          0).drop (List.length ([] : List GoldenRecord))).zip
        (high_confidence_matches c2_records c2_same_person) ∧
      c2_rp.1.steward_status = "pending" ∧
      c2_rp.1.source_patient_ids = "1,2" := by
  have h :=
    (generate_golden_records_spec c2_records c2_same_person c2_merge [] 1
        0).2.2.2 c2_rp (by decide)
  exact ⟨by decide, h.1, by decide⟩

/-! ### C6 — wrapper behaviour when the query raises -/

instance {ε α : Type} [DecidableEq ε] [DecidableEq α] :
    DecidableEq (Except ε α) := fun x y =>
  match x, y with
  | Except.ok a, Except.ok b =>
    if h : a = b then Decidable.isTrue (by rw [h])
    else Decidable.isFalse (fun hcon => h (Except.ok.inj hcon))
  | Except.error a, Except.error b =>
    if h : a = b then Decidable.isTrue (by rw [h])
    else Decidable.isFalse (fun hcon => h (Except.error.inj hcon))
  | Except.ok _, Except.error _ => Decidable.isFalse (fun hcon => Except.noConfusion hcon)
  | Except.error _, Except.ok _ => Decidable.isFalse (fun hcon => Except.noConfusion hcon)

/-- Counterexample to C6's propagation clause: when the wrapped query
raises, `async_query_wrapper` does not re-raise — it catches the error and
returns the fallback dataset (here the empty frame, modelled as `3`,
because `"fetch_duplicate_data"` contains neither `"patient"` nor
`"quality"`).  The cache is left untouched. -/
theorem wrapper_swallows_error :
    (async_query_wrapper "fetch_duplicate_data" demo_config
          (Except.error "Query failed") (clear_cache : Cache Nat) 0 1 2 3).1 =
        Except.ok 3 ∧
      (async_query_wrapper "fetch_duplicate_data" demo_config
            (Except.error "Query failed") (clear_cache : Cache Nat) 0 1 2
            3).1 ≠
        Except.error "Query failed" ∧
      (async_query_wrapper "fetch_duplicate_data" demo_config
            (Except.error "Query failed") (clear_cache : Cache Nat) 0 1 2
            3).2 =
        (clear_cache : Cache Nat) := by
  decide

/-- C6 as amended: when the wrapped query raises, the cache (stale or
missing entry alike) is left exactly as it was and nothing is stored; but
the error does not propagate — on a cache miss the wrapper returns the
fallback dataset chosen from the operation name as an ordinary value. -/
theorem wrapper_error_leaves_cache {α : Type} (funcName : String)
    (config : DbConfig) (err : String) (c : Cache α) (now : Int)
    (demoData demoQuality emptyFrame : α) :
    (async_query_wrapper funcName config (Except.error err) c now demoData
          demoQuality emptyFrame).2 = c ∧
      (get_cached_data c now (cache_key funcName config) = none →
        (async_query_wrapper funcName config (Except.error err) c now demoData
            demoQuality emptyFrame).1 =
          Except.ok (fallback_data funcName demoData demoQuality emptyFrame)) := by
  unfold async_query_wrapper
  cases h : get_cached_data c now (cache_key funcName config) <;> simp [h]

/-- Witness for C6's amended theorem: a failing quality query over an empty
cache leaves the cache empty and yields the demo quality dataset. -/
theorem wrapper_error_leaves_cache_witness :
    (async_query_wrapper "fetch_quality_data" demo_config
          (Except.error "boom") (clear_cache : Cache Nat) 0 1 2 3).2 =
        (clear_cache : Cache Nat) ∧
      (async_query_wrapper "fetch_quality_data" demo_config
            (Except.error "boom") (clear_cache : Cache Nat) 0 1 2 3).1 =
        Except.ok 2 := by
  have h :=
    wrapper_error_leaves_cache "fetch_quality_data" demo_config "boom"
      (clear_cache : Cache Nat) 0 1 2 3
  refine ⟨h.1, ?_⟩
  rw [h.2 (by decide)]
  decide

/-! ### C9 — cache-key derivation -/

/-- The four query operations decorated with `async_query_wrapper`. -/
def cached_query_ops : List String :=
  ["fetch_patient_data", "fetch_quality_data", "fetch_duplicate_data",
    "fetch_golden_records"]

/-- The table a cached operation actually queries:
`fetch_golden_records` reads `get_table_reference('golden')`, the other
three read `get_table_reference('main')`. -/
def target_table (funcName : String) (config : DbConfig) : String :=
  if funcName = "fetch_golden_records" then get_table_reference config "golden"
  else get_table_reference config "main"

/-- Counterexample to C9: two configurations differing only in
`golden_table_name` give `fetch_golden_records` different target tables but
the same cache key, because the key is always built from `table_name`. -/
theorem golden_key_ignores_target_table :
    "fetch_golden_records" ∈ cached_query_ops ∧
      target_table "fetch_golden_records" demo_config ≠
        target_table "fetch_golden_records"
          { demo_config with golden_table_name := "patients_gold_v2" } ∧
      cache_key "fetch_golden_records" demo_config =
        cache_key "fetch_golden_records"
          { demo_config with golden_table_name := "patients_gold_v2" } := by
  decide

/-- C9 as amended: the cache key is a deterministic function of the
operation name and the `(catalog_name, schema_name, table_name)` part of
the configuration only — it never reads `golden_table_name`, wall-clock
time or random state.  Hence calls with identical configuration share a
key, and configurations with the same catalog and schema but different
`table_name` get different keys; but for `fetch_golden_records`, whose
target table is `golden_table_name`, configurations differing only in the
target table share a key. -/
theorem cache_key_spec (funcName : String) (cfg cfg' : DbConfig)
    (hc : cfg.catalog_name = cfg'.catalog_name)
    (hs : cfg.schema_name = cfg'.schema_name) :
    (cfg.table_name = cfg'.table_name →
        cache_key funcName cfg = cache_key funcName cfg') ∧
      (cfg.table_name ≠ cfg'.table_name →
        cache_key funcName cfg ≠ cache_key funcName cfg') ∧
      ∀ g : String,
        cache_key funcName { cfg with golden_table_name := g } =
          cache_key funcName cfg := by
  refine ⟨?_, ?_, ?_⟩
  · intro ht
    unfold cache_key
    rw [hc, hs, ht]
  · intro hne hkey
    apply hne
    unfold cache_key at hkey
    rw [hc, hs] at hkey
    have hd := congrArg String.data hkey
    simp only [String.data_append] at hd
    exact String.ext (List.append_cancel_left hd)
  · intro g
    rfl

/-- Witness for C9's amended theorem: same configuration means same key,
and changing the main table name changes the key. -/
theorem cache_key_spec_witness :
    cache_key "fetch_patient_data" demo_config =
        cache_key "fetch_patient_data" demo_config ∧
      cache_key "fetch_patient_data" demo_config ≠
        cache_key "fetch_patient_data"
          { demo_config with table_name := "patients_v2" } := by
  refine ⟨?_, ?_⟩
  · exact
      (cache_key_spec "fetch_patient_data" demo_config demo_config rfl rfl).1
        rfl
  · exact
      (cache_key_spec "fetch_patient_data" demo_config
          { demo_config with table_name := "patients_v2" } rfl rfl).2.1
        (by decide)

/-! ### C1 — duplicate detection result shape -/

/-- Modelled from the spec: the total result order the claim asserts —
descending similarity score with ties broken by `(id1, id2)` ascending.
The SQL query itself orders by the single key `similarity_score DESC`. -/
def specified_result_order (a b : SimRow) : Prop :=
  b.similarity_score < a.similarity_score ∨
    (a.similarity_score = b.similarity_score ∧
      (a.id1 < b.id1 ∨ (a.id1 = b.id1 ∧ a.id2 ≤ b.id2)))

instance : DecidableRel specified_result_order := fun a b => by
  unfold specified_result_order
  infer_instance

/-- The unordered pair of ids carried by a result row. -/
def unordered_ids (r : SimRow) : Nat × Nat :=
  (min r.id1 r.id2, max r.id1 r.id2)

/-- The ordered pair of ids carried by a result row. -/
def row_ids (r : SimRow) : Nat × Nat :=
  (r.id1, r.id2)

/-- Every row of the unsorted result set has `id1 < id2` and score above
the threshold. -/
theorem duplicate_rows_mem (records : List Patient)
    (oracle : Patient → Patient → SimilarityVerdict) :
    ∀ r ∈ duplicate_rows records oracle,
      r.id1 < r.id2 ∧ MATCH_THRESHOLD < r.similarity_score := by
  intro r hr
  unfold duplicate_rows at hr
  rw [List.mem_filter] at hr
  obtain ⟨hr1, hr2⟩ := hr
  rw [decide_eq_true_eq] at hr2
  unfold pairwise_similarity at hr1
  rw [List.mem_map] at hr1
  obtain ⟨p, hp, hpr⟩ := hr1
  rw [List.mem_filter] at hp
  obtain ⟨hp1, hp2⟩ := hp
  rw [decide_eq_true_eq] at hp2
  subst hpr
  exact ⟨hp2, hr2⟩

/-- The unsorted result set never repeats an ordered id pair when the
input ids are distinct. -/
theorem duplicate_rows_nodup (records : List Patient)
    (oracle : Patient → Patient → SimilarityVerdict)
    (hids : (records.map Patient.patient_id).Nodup) :
    ((duplicate_rows records oracle).map row_ids).Nodup := by
  have hrecs : records.Nodup := List.Nodup.of_map _ hids
  have hinj := List.inj_on_of_nodup_map hids
  have hbase :
      ((records ×ˢ records).filter
          (fun p => decide (p.1.patient_id < p.2.patient_id))).Nodup :=
    (hrecs.product hrecs).filter _
  have hmapbase :
      (((records ×ˢ records).filter
            (fun p => decide (p.1.patient_id < p.2.patient_id))).map
          (fun p => (p.1.patient_id, p.2.patient_id))).Nodup := by
    refine (List.nodup_map_iff_inj_on hbase).2 ?_
    intro x hx y hy hg
    rcases x with ⟨x1, x2⟩
    rcases y with ⟨y1, y2⟩
    have hx' := (List.mem_filter.1 hx).1
    have hy' := (List.mem_filter.1 hy).1
    rw [List.mem_product] at hx' hy'
    rw [Prod.mk.injEq] at hg
    rw [Prod.mk.injEq]
    exact ⟨hinj hx'.1 hy'.1 hg.1, hinj hx'.2 hy'.2 hg.2⟩
  unfold duplicate_rows pairwise_similarity
  rw [List.filter_map, List.map_map]
  exact List.Nodup.sublist (List.Sublist.map _ (List.filter_sublist _)) hmapbase

/-- C1 as amended: for input records with pairwise-distinct ids, any
possible result of `fetch_duplicate_data` contains only pairs with
`id1 < id2`, never repeats an unordered pair, contains only pairs with
`similarity_score > 0.5`, and is sorted descending by `similarity_score`.
The relative order of rows with equal scores is not constrained by the
query (its `ORDER BY` has no secondary key). -/
theorem fetch_duplicate_data_spec (records : List Patient)
    (oracle : Patient → Patient → SimilarityVerdict) (out : List SimRow)
    (hids : (records.map Patient.patient_id).Nodup)
    (hout : fetch_duplicate_data records oracle out) :
    (∀ r ∈ out, r.id1 < r.id2) ∧
      (∀ r ∈ out, MATCH_THRESHOLD < r.similarity_score) ∧
      (out.map unordered_ids).Nodup ∧
      out.Sorted (fun a b => b.similarity_score ≤ a.similarity_score) := by
  have hperm := hout.1
  have hlt : ∀ r ∈ out, r.id1 < r.id2 := fun r hr =>
    (duplicate_rows_mem records oracle r (hperm.mem_iff.1 hr)).1
  refine ⟨hlt, ?_, ?_, hout.2⟩
  · exact fun r hr =>
      (duplicate_rows_mem records oracle r (hperm.mem_iff.1 hr)).2
  · have hkey : (out.map row_ids).Nodup :=
      (hperm.map row_ids).nodup_iff.2 (duplicate_rows_nodup records oracle hids)
    have heq : out.map unordered_ids = out.map row_ids := by
      refine List.map_congr_left ?_
      intro r hr
      have h := hlt r hr
      unfold unordered_ids row_ids
      rw [min_eq_left h.le, max_eq_right h.le]
    rw [heq]
    exact hkey

/-- Three demo records with a shared Medicare number. -/
def c1_records : List Patient :=
  [{ patient_id := 1, patient_name := some "John Smith"
     date_of_birth := some "1980-01-01"
     medicare_number := some "2428912345678"
     source_system := some "EMR_System_A" },
   { patient_id := 2, patient_name := some "J. Smith"
     date_of_birth := some "1980-01-01"
     medicare_number := some "2428912345678"
     source_system := some "EMR_System_B" },
   { patient_id := 3, patient_name := some "Jon Smythe"
     date_of_birth := some "1980-01-01"
     medicare_number := some "2428912345678"
     source_system := some "Lab_System" }]

/-- A similarity oracle scoring pairs (1,2) and (1,3) with a full tie and
pair (2,3) below the threshold. -/
def c1_oracle (p q : Patient) : SimilarityVerdict :=
  if p.patient_id = 2 ∧ q.patient_id = 3 then
    { similarity_score := 0, is_match := false, confidence := "low"
      match_reason := "different" }
  else
    { similarity_score := 1, is_match := true, confidence := "high"
      match_reason := "same medicare" }

/-- A possible result of `fetch_duplicate_data` on the demo input: the two
tied rows in `(id1, id2)`-descending order. -/
def c1_out : List SimRow :=
  [{ id1 := 1, id2 := 3, similarity_score := 1, is_match := true
     confidence := "high" },
   { id1 := 1, id2 := 2, similarity_score := 1, is_match := true
     confidence := "high" }]

/-- Counterexample to C1's tie-breaking clause: `c1_out` is a possible
result of `fetch_duplicate_data` on distinct-id input (it is a permutation
of the retained rows sorted descending by score), yet its tied rows are not
in `(id1, id2)`-ascending order. -/
theorem duplicate_ties_not_id_ordered :
    (c1_records.map Patient.patient_id).Nodup ∧
      fetch_duplicate_data c1_records c1_oracle c1_out ∧
      ¬ c1_out.Sorted specified_result_order := by
  decide

/-- Witness for C1's amended theorem at the demo input. -/
theorem fetch_duplicate_data_spec_witness :
    (∀ r ∈ c1_out, r.id1 < r.id2) ∧
      (∀ r ∈ c1_out, MATCH_THRESHOLD < r.similarity_score) ∧
      (c1_out.map unordered_ids).Nodup ∧
      c1_out.Sorted (fun a b => b.similarity_score ≤ a.similarity_score) :=
  fetch_duplicate_data_spec c1_records c1_oracle c1_out (by decide) (by decide)

/-! ### C8 — quality assessment result shape -/

/-- The assessed rows carry exactly the input record ids. -/
theorem quality_rows_ids (records : List Patient)
    (oracle : Patient → QualityVerdict) :
    (quality_rows records oracle).map QualityRow.patient_id =
      records.map Patient.patient_id := by
  unfold quality_rows
  rw [List.map_map]
  rfl

/-- C8 as amended: any possible result of `fetch_quality_data` has exactly
one assessment per input record (same length, and the multiset of returned
ids is exactly the multiset of input ids), and is sorted descending by
`quality_score` — not ordered by record id. -/
theorem fetch_quality_data_spec (records : List Patient)
    (oracle : Patient → QualityVerdict) (out : List QualityRow)
    (hout : fetch_quality_data records oracle out) :
    out.length = records.length ∧
      (out.map QualityRow.patient_id).Perm (records.map Patient.patient_id) ∧
      out.Sorted (fun a b => b.quality_score ≤ a.quality_score) := by
  refine ⟨?_, ?_, hout.2⟩
  · rw [hout.1.length_eq]
    simp [quality_rows]
  · have h := hout.1.map QualityRow.patient_id
    rw [quality_rows_ids records oracle] at h
    exact h

/-- Two demo records where record 2 scores higher than record 1. -/
def c8_records : List Patient :=
  [{ patient_id := 1, patient_name := some "John Smith"
     date_of_birth := some "1980-01-01", medicare_number := none
     source_system := some "Registration_System" },
   { patient_id := 2, patient_name := some "Jane Doe"
     date_of_birth := some "1985-05-05"
     medicare_number := some "2987654321098"
     source_system := some "EMR_System_A" }]

/-- A quality oracle scoring record 1 at 50 and record 2 at 90. -/
def c8_oracle (p : Patient) : QualityVerdict :=
  if p.patient_id = 1 then { quality_score := 50, completeness := 1 }
  else { quality_score := 90, completeness := 1 }

/-- The only possible result on the demo input: sorted by score
descending, which reverses the id order. -/
def c8_out : List QualityRow :=
  [{ patient_id := 2, patient_name := some "Jane Doe"
     source_system := some "EMR_System_A", quality_score := 90
     completeness := 1 },
   { patient_id := 1, patient_name := some "John Smith"
     source_system := some "Registration_System", quality_score := 50
     completeness := 1 }]

/-- Counterexample to C8's order-preservation clause: `c8_out` is a
possible (indeed the only) result of `fetch_quality_data` on the demo
input — the query orders by `CAST(quality_score AS INT) DESC` — and its id
sequence `[2, 1]` does not preserve the input id order `[1, 2]`. -/
theorem quality_not_ordered_by_id :
    fetch_quality_data c8_records c8_oracle c8_out ∧
      ¬ c8_out.map QualityRow.patient_id = c8_records.map Patient.patient_id := by
  decide

/-- Witness for C8's amended theorem at the demo input. -/
theorem fetch_quality_data_spec_witness :
    c8_out.length = c8_records.length ∧
      (c8_out.map QualityRow.patient_id).Perm
        (c8_records.map Patient.patient_id) ∧
      c8_out.Sorted (fun a b => b.quality_score ≤ a.quality_score) :=
  fetch_quality_data_spec c8_records c8_oracle c8_out (by decide)

/-! ### C7 — concurrent callers of the wrapper -/

/-- One when this caller has run the wrapped query: its `pending` slot is
filled exactly at the compute step and never cleared. -/
def computed_flag {α : Type} (v : CallerView α) : Nat :=
  match v.pending with
  | none => 0
  | some _ => 1

/-- Inductive invariant of the race: the compute counter equals the number
of callers that have computed; `pending` is empty before the compute step;
a non-empty cache, or a caller that finished without computing, implies at
least one compute has happened. -/
def race_inv {α : Type} (s : RaceState α) : Prop :=
  s.computeCount = computed_flag s.callerA + computed_flag s.callerB ∧
    ((s.callerA.phase = CallerPhase.ready ∨
        s.callerA.phase = CallerPhase.missed) → s.callerA.pending = none) ∧
    ((s.callerB.phase = CallerPhase.ready ∨
        s.callerB.phase = CallerPhase.missed) → s.callerB.pending = none) ∧
    (s.cache.data_cache ≠ [] → 1 ≤ s.computeCount) ∧
    (s.callerA.phase = CallerPhase.finished ∧ s.callerA.pending = none →
      1 ≤ s.computeCount) ∧
    (s.callerB.phase = CallerPhase.finished ∧ s.callerB.pending = none →
      1 ≤ s.computeCount)

/-- A successful cache read implies the data dictionary is non-empty. -/
theorem get_cached_data_nonempty {α : Type} (c : Cache α) (now : Int)
    (key : String) (v : α) (h : get_cached_data c now key = some v) :
    c.data_cache ≠ [] := by
  intro hnil
  unfold get_cached_data at h
  rw [hnil] at h
  simp [List.lookup] at h

/-- One caller step preserves the per-caller pieces of the invariant and
never decreases the compute counter.  `g` is the other caller's computed
flag. -/
theorem caller_step_inv {α : Type} (key : String) (now : Int) (compute : α)
    (v : CallerView α) (cache : Cache α) (count : Nat) (g : Nat)
    (hcount : count = computed_flag v + g)
    (hpend : (v.phase = CallerPhase.ready ∨ v.phase = CallerPhase.missed) →
      v.pending = none)
    (hcache : cache.data_cache ≠ [] → 1 ≤ count)
    (hdone : v.phase = CallerPhase.finished ∧ v.pending = none → 1 ≤ count) :
    (caller_step key now compute v cache count).2.2 =
        computed_flag (caller_step key now compute v cache count).1 + g ∧
      (((caller_step key now compute v cache count).1.phase =
            CallerPhase.ready ∨
          (caller_step key now compute v cache count).1.phase =
            CallerPhase.missed) →
        (caller_step key now compute v cache count).1.pending = none) ∧
      ((caller_step key now compute v cache count).2.1.data_cache ≠ [] →
        1 ≤ (caller_step key now compute v cache count).2.2) ∧
      ((caller_step key now compute v cache count).1.phase =
            CallerPhase.finished ∧
          (caller_step key now compute v cache count).1.pending = none →
        1 ≤ (caller_step key now compute v cache count).2.2) ∧
      count ≤ (caller_step key now compute v cache count).2.2 := by
  rcases v with ⟨ph, pend, ret⟩
  cases ph with
  | ready =>
    have hp : pend = none := hpend (Or.inl rfl)
    subst hp
    unfold caller_step
    cases hlk : get_cached_data cache now key with
    | none =>
      simp only [hlk]
      refine ⟨hcount, ?_, hcache, ?_, le_refl count⟩
      · intro _
        trivial
      · intro hfin
        exact absurd hfin.1 (by simp)
    | some cached =>
      simp only [hlk]
      have hne := get_cached_data_nonempty cache now key cached hlk
      refine ⟨hcount, ?_, hcache, ?_, le_refl count⟩
      · intro hor
        rcases hor with h | h <;> simp at h
      · intro _
        exact hcache hne
  | missed =>
    have hp : pend = none := hpend (Or.inr rfl)
    subst hp
    unfold caller_step
    refine ⟨?_, ?_, ?_, ?_, Nat.le_succ count⟩
    · simp [computed_flag] at hcount ⊢
      omega
    · intro hor
      rcases hor with h | h <;> simp at h
    · intro hne
      exact Nat.le_succ_of_le (hcache hne)
    · intro hfin
      exact absurd hfin.1 (by simp)
  | computed =>
    cases pend with
    | none =>
      unfold caller_step
      refine ⟨hcount, ?_, hcache, ?_, le_refl count⟩
      · intro _
        trivial
      · intro hfin
        exact absurd hfin.1 (by simp)
    | some r =>
      unfold caller_step
      have hone : 1 ≤ count := by
        simp [computed_flag] at hcount
        omega
      refine ⟨hcount, ?_, fun _ => hone, ?_, le_refl count⟩
      · intro hor
        rcases hor with h | h <;> simp at h
      · intro hfin
        exact absurd hfin.2 (by simp)
  | finished =>
    unfold caller_step
    refine ⟨hcount, ?_, hcache, ?_, le_refl count⟩
    · intro hor
      rcases hor with h | h <;> simp at h
    · intro hfin
      exact hdone ⟨rfl, hfin.2⟩

/-- A race step preserves the invariant and never decreases the compute
counter. -/
theorem race_step_inv {α : Type} (key : String) (now : Int)
    (computeA computeB : α) (s : RaceState α) (b : Bool) (h : race_inv s) :
    race_inv (race_step key now computeA computeB s b) ∧
      s.computeCount ≤ (race_step key now computeA computeB s b).computeCount := by
  obtain ⟨hcount, hpendA, hpendB, hcache, hdoneA, hdoneB⟩ := h
  cases b with
  | false =>
    have hstep :=
      caller_step_inv key now computeA s.callerA s.cache s.computeCount
        (computed_flag s.callerB) hcount hpendA hcache hdoneA
    obtain ⟨h1, h2, h3, h4, h5⟩ := hstep
    unfold race_step race_inv
    exact ⟨⟨h1, h2, hpendB, h3, h4, fun hfin => le_trans (hdoneB hfin) h5⟩, h5⟩
  | true =>
    have hcount' :
        s.computeCount = computed_flag s.callerB + computed_flag s.callerA := by
      omega
    have hstep :=
      caller_step_inv key now computeB s.callerB s.cache s.computeCount
        (computed_flag s.callerA) hcount' hpendB hcache hdoneB
    obtain ⟨h1, h2, h3, h4, h5⟩ := hstep
    unfold race_step race_inv
    exact ⟨⟨h1.trans (Nat.add_comm _ _), hpendA, h2, h3,
      fun hfin => le_trans (hdoneA hfin) h5, h4⟩, h5⟩

/-- The invariant holds initially. -/
theorem race_init_inv {α : Type} : race_inv (race_init : RaceState α) := by
  unfold race_inv race_init computed_flag clear_cache
  simp

/-- The invariant holds after any schedule. -/
theorem race_run_inv {α : Type} (funcName : String) (config : DbConfig)
    (now : Int) (computeA computeB : α) (sched : List Bool) :
    race_inv (race_run funcName config now computeA computeB sched) := by
  unfold race_run
  have hgen :
      ∀ (l : List Bool) (s : RaceState α), race_inv s →
        race_inv
          (l.foldl (race_step (cache_key funcName config) now computeA computeB) s) := by
    intro l
    induction l with
    | nil => intro s hs; exact hs
    | cons b t ih =>
      intro s hs
      exact ih _ (race_step_inv (cache_key funcName config) now computeA
        computeB s b hs).1
  exact hgen sched race_init race_init_inv

/-- The computed flag is at most one. -/
theorem computed_flag_le_one {α : Type} (v : CallerView α) :
    computed_flag v ≤ 1 := by
  unfold computed_flag
  cases v.pending <;> simp

/-- C7 as amended: the wrapper performs an unsynchronized check / compute /
store sequence, so when two concurrent callers of the same fingerprint
both finish starting from an empty cache, the compute function has been
invoked once or twice — there is no at-most-one guarantee.  The fully
interleaved schedule invokes it twice (each caller computes its own
result), while a sequential schedule invokes it once and the second caller
receives the first caller's cached result. -/
theorem async_wrapper_no_mutual_exclusion {α : Type} (funcName : String)
    (config : DbConfig) (now : Int) (computeA computeB : α) :
    (∀ sched : List Bool,
        race_done (race_run funcName config now computeA computeB sched) →
          1 ≤ (race_run funcName config now computeA computeB
              sched).computeCount ∧
            (race_run funcName config now computeA computeB
                sched).computeCount ≤ 2) ∧
      (race_run "fetch_patient_data" demo_config 0 (1 : Nat) 2
          [false, true, false, true, false, true]).computeCount = 2 ∧
      (race_run "fetch_patient_data" demo_config 0 (1 : Nat) 2
          [false, false, false, true]).computeCount = 1 ∧
      (race_run "fetch_patient_data" demo_config 0 (1 : Nat) 2
          [false, false, false, true]).callerB.retval = some 1 := by
  refine ⟨?_, by decide, by decide, by decide⟩
  intro sched hdone
  have hinv := race_run_inv funcName config now computeA computeB sched
  obtain ⟨hcount, _, _, _, hdoneA, hdoneB⟩ := hinv
  have hA := computed_flag_le_one
    (race_run funcName config now computeA computeB sched).callerA
  have hB := computed_flag_le_one
    (race_run funcName config now computeA computeB sched).callerB
  constructor
  · by_contra hzero
    have hc0 : (race_run funcName config now computeA computeB
        sched).computeCount = 0 := by omega
    have hfa : computed_flag
        (race_run funcName config now computeA computeB sched).callerA = 0 := by
      omega
    have hpa : (race_run funcName config now computeA computeB
        sched).callerA.pending = none := by
      revert hfa
      unfold computed_flag
      cases (race_run funcName config now computeA computeB
          sched).callerA.pending <;> simp
    have := hdoneA ⟨hdone.1, hpa⟩
    omega
  · omega

/-- Counterexample to C7: under the fully interleaved schedule both
callers miss the empty cache and each invokes the wrapped query — the
compute function runs twice, and the two callers return different results
when their computations differ. -/
theorem race_computes_twice :
    race_done (race_run "fetch_patient_data" demo_config 0 (1 : Nat) 2
        [false, true, false, true, false, true]) ∧
      (race_run "fetch_patient_data" demo_config 0 (1 : Nat) 2
          [false, true, false, true, false, true]).computeCount = 2 ∧
      (race_run "fetch_patient_data" demo_config 0 (1 : Nat) 2
          [false, true, false, true, false, true]).callerA.retval ≠
        (race_run "fetch_patient_data" demo_config 0 (1 : Nat) 2
            [false, true, false, true, false, true]).callerB.retval := by
  decide

/-- Witness for C7's amended theorem: the race schedule finishes both
callers, so the general bound applies to it and is tight. -/
theorem async_wrapper_no_mutual_exclusion_witness :
    (1 ≤ (race_run "fetch_patient_data" demo_config 0 (1 : Nat) 2
          [false, true, false, true, false, true]).computeCount ∧
        (race_run "fetch_patient_data" demo_config 0 (1 : Nat) 2
            [false, true, false, true, false, true]).computeCount ≤ 2) ∧
      (race_run "fetch_patient_data" demo_config 0 (1 : Nat) 2
          [false, false, false, true]).computeCount = 1 :=
  ⟨(async_wrapper_no_mutual_exclusion "fetch_patient_data" demo_config 0
        (1 : Nat) 2).1 [false, true, false, true, false, true] (by decide),
    (async_wrapper_no_mutual_exclusion "fetch_patient_data" demo_config 0
        (1 : Nat) 2).2.2.1⟩

end HealthcareMDM
